import Mathlib

/-!
Shallow embedding of the orchestration core of `stock_analyzer.py`
(class `StockAnalyzer`), covering:

* `validate_symbol`          — market-data validation,
* `create_openai_tools_schema` — the tool-schema adapter,
* `execute_mcp_tool`         — single tool invocation over the MCP session,
* `analyze_with_openai`      — the orchestration loop over the tool calls
                               proposed by the OpenAI backend,
* `generate_final_report_with_ai` — report synthesis,
* `save_report`              — report persistence.

External effects are modelled as explicit inputs:

* the MCP session (`list_tools`, `call_tool`) and the OpenAI chat
  completion are external, nondeterministic services, so their outcomes
  are free inputs of type `Except String _` (an `Except.error e` is a
  raised exception carrying the message `e`);
* the MCP server may answer each request differently, so `call_tool` is
  indexed by the ordinal number of the invocation inside one
  orchestration run;
* Python functions that may raise are embedded with result type
  `Except String _`; a function embedded with a plain result type is one
  whose Python body cannot raise past its boundary.

`Nat`/`Int`/`Rat` stand for the numeric literals of the source; no
arithmetic is performed on them by this program.
-/

namespace StockAnalyzer

/-- A JSON-like parameter value as it occurs in this program's parameter
bags: a string, a number, a list of numbers (`fibonacci_levels`), or a
flat object with numeric fields (`macd_params`, `connors_params`).  These
are exactly the value shapes the source ever places in a parameter bag. -/
inductive JVal where
  | s (v : String)
  | q (v : Rat)
  | qs (vs : List Rat)
  | dict (fields : List (String × Rat))
  deriving DecidableEq, Repr

/-- A parameter bag: a Python `dict` in insertion order. -/
def Params : Type := List (String × JVal)

instance : DecidableEq Params := by
  unfold Params
  infer_instance

/-- An MCP tool descriptor as consumed by `create_openai_tools_schema`:
its `name` and its `description` (a Python value that may be `None` or
the empty string). -/
structure MCPTool where
  name : String
  description : Option String
  deriving DecidableEq, Repr

/-- The JSON-schema record for one parameter of an OpenAI function
specification (`"type"` and `"description"` fields). -/
structure ParamSchema where
  type : String
  description : String
  deriving DecidableEq, Repr

/-- The `"parameters"` object of an OpenAI function specification. -/
structure FunctionParameters where
  type : String
  properties : List (String × ParamSchema)
  required : List String
  deriving DecidableEq, Repr

/-- The `"function"` object of an OpenAI tool specification. -/
structure FunctionSpec where
  name : String
  description : String
  parameters : FunctionParameters
  deriving DecidableEq, Repr

/-- One entry of the OpenAI tools schema built by
`create_openai_tools_schema`. -/
structure OpenAITool where
  type : String
  function : FunctionSpec
  deriving DecidableEq, Repr

/-- The argument payload of a proposed tool call
(`tool_call.function.arguments`), as seen by
`eval(tool_call.function.arguments) if tool_call.function.arguments else {}`:
it is either falsy (empty), a well-formed payload that `eval` parses to a
parameter bag, or a malformed payload on which `eval` raises with
message `m`. -/
inductive ArgPayload where
  | empty
  | wellFormed (p : Params)
  | malformed (m : String)
  deriving DecidableEq

/-- One tool call proposed by the backend (`message.tool_calls[i]`). -/
structure ToolCall where
  name : String
  arguments : ArgPayload
  deriving DecidableEq

/-- The message of the first choice of the chat completion used for
orchestration: optional narrative `content` plus the proposed tool calls
(Python `None` tool calls behave as the empty list). -/
structure ChatMessage where
  content : Option String
  tool_calls : List ToolCall
  deriving DecidableEq

/-- The result object of `session.call_tool`: its list of text content
blocks. -/
structure ToolCallResult where
  content : List String
  deriving DecidableEq

/-- The MCP session's `call_tool`, indexed by the ordinal number of the
invocation within the run (the external server may answer each request
differently); `Except.error` is a raised transport/tool exception. -/
def CallTool : Type := Nat → String → Params → Except String ToolCallResult

/-- Python truthiness for `x or fallback` on an optional string: `None`
and `""` are falsy. -/
def pyOr (x : Option String) (fallback : String) : String :=
  match x with
  | some s => if s = "" then fallback else s
  | none => fallback

/-- `get_available_tools`: `response.tools if response else []`, and any
exception is caught and converted to `[]`. -/
def get_available_tools (listToolsOutcome : Except String (Option (List MCPTool))) :
    List MCPTool :=
  match listToolsOutcome with
  | .error _ => []
  | .ok none => []
  | .ok (some ts) => ts

/-- The five target tool names (`target_tools` in
`create_openai_tools_schema`). -/
def target_tools : List String :=
  [ "analyze_bollinger_zscore_performance"
  , "analyze_bollinger_fibonacci_performance"
  , "analyze_macd_donchian_performance"
  , "analyze_connors_zscore_performance"
  , "analyze_dual_ma_strategy" ]

/-- The OpenAI tool specification built for one retained MCP tool: base
record with empty `properties`, then the `symbol` parameter is added
(guarded by the `"symbol" not in properties` check of the source, which
is always true on the empty base). -/
def mkOpenAITool (tool : MCPTool) : OpenAITool :=
  let base : FunctionParameters :=
    { type := "object", properties := [], required := [] }
  let ps : FunctionParameters :=
    if base.properties.any (fun kv => kv.1 = "symbol") then base
    else
      { type := base.type
      , properties :=
          base.properties ++ [("symbol", ⟨"string", "Stock ticker symbol"⟩)]
      , required := base.required ++ ["symbol"] }
  { type := "function"
  , function :=
      { name := tool.name
      , description := pyOr tool.description ("Execute " ++ tool.name ++ " analysis")
      , parameters := ps } }

/-- `create_openai_tools_schema`: iterate over the MCP tools, keeping
(in input order) exactly those whose name is in `target_tools`, each
converted by `mkOpenAITool`. -/
def create_openai_tools_schema : List MCPTool → List OpenAITool
  | [] => []
  | tool :: rest =>
    if tool.name ∈ target_tools then
      mkOpenAITool tool :: create_openai_tools_schema rest
    else
      create_openai_tools_schema rest

/-- Python `str.strip()`: drop whitespace characters from both ends. -/
def pyStrip (s : String) : String :=
  ⟨((s.data.dropWhile Char.isWhitespace).reverse.dropWhile
      Char.isWhitespace).reverse⟩

/-- `validate_symbol`, with the yfinance 5-day history lookup as an
explicit input (`Except.error` = the lookup raised; `.ok rows` = the
returned close rows, `hist.empty` iff `rows = []`).  The second
component of the result counts the external lookups performed.  The
Python body cannot raise (empty input short-circuits, and the lookup is
wrapped in `try/except` returning `False`), so the result is a plain
pair. -/
def validate_symbol (lookup : String → Except String (List Rat))
    (symbol : String) : Bool × Nat :=
  if symbol = "" ∨ pyStrip symbol = "" then (false, 0)
  else
    match lookup ((pyStrip symbol).toUpper) with
    | .error _ => (false, 1)
    | .ok hist => if hist = [] then (false, 1) else (true, 1)

/-- `execute_mcp_tool`: calls `session.call_tool` and returns the text of
the first content block (`result.content[0].text if result.content else
None`); any exception is caught and converted to `none`. -/
def execute_mcp_tool (call_tool : CallTool) (k : Nat)
    (tool_name : String) (parameters : Params) : Option String :=
  match call_tool k tool_name parameters with
  | .error _ => none
  | .ok result => result.content.head?

/-- The hardcoded per-tool parameter updates of the orchestration loop
(the `if tool_name == ... : tool_params.update({...})` chain); an
unrecognized name leaves the bag untouched. -/
def canonicalParams (tool_name : String) : Params :=
  if tool_name = "analyze_bollinger_zscore_performance" then
    [("period", .s "1y"), ("window", .q 20)]
  else if tool_name = "analyze_bollinger_fibonacci_performance" then
    [ ("period", .s "1y"), ("window", .q 20), ("num_std", .q 2)
    , ("fibonacci_levels", .qs [0, 0.236, 0.382, 0.5, 0.618, 0.786, 1]) ]
  else if tool_name = "analyze_macd_donchian_performance" then
    [ ("period", .s "1y")
    , ("macd_params", .dict [("fast_period", 12), ("slow_period", 26), ("signal_period", 9)])
    , ("donchian_window", .q 20) ]
  else if tool_name = "analyze_connors_zscore_performance" then
    [ ("period", .s "1y")
    , ("connors_params", .dict [("rsi_period", 3), ("streak_period", 2), ("rank_period", 100)])
    , ("zscore_window", .q 20) ]
  else if tool_name = "analyze_dual_ma_strategy" then
    [ ("period", .s "1y"), ("short_period", .q 50), ("long_period", .q 200)
    , ("ma_type", .s "EMA") ]
  else []

/-- The parameter bag actually passed to `execute_mcp_tool` for one
proposed call: `tool_params = {"symbol": symbol}` followed by the
canonical update (whose keys are disjoint from `"symbol"`, so the update
appends in dict insertion order). -/
def toolParams (tool_name symbol : String) : Params :=
  ("symbol", .s symbol) :: canonicalParams tool_name

/-- `key_mapping.get(tool_name, tool_name)`: the internal strategy key
for a tool name, defaulting to the raw tool name. -/
def keyMapping (tool_name : String) : String :=
  if tool_name = "analyze_bollinger_zscore_performance" then "bollinger_zscore"
  else if tool_name = "analyze_bollinger_fibonacci_performance" then "bollinger_fibonacci"
  else if tool_name = "analyze_macd_donchian_performance" then "macd_donchian"
  else if tool_name = "analyze_connors_zscore_performance" then "connors_zscore"
  else if tool_name = "analyze_dual_ma_strategy" then "dual_ma"
  else tool_name

/-- Python dict assignment `d[k] = v` on an insertion-ordered
association list: overwrite in place if the key is present, else append. -/
def dictInsert (d : List (String × String)) (k v : String) :
    List (String × String) :=
  if d.any (fun kv => kv.1 = k) then
    d.map (fun kv => if kv.1 = k then (k, v) else kv)
  else
    d ++ [(k, v)]

/-- The `eval(arguments) if arguments else {}` step of the orchestration
loop; a malformed payload raises. -/
def evalArguments : ArgPayload → Except String Params
  | .empty => .ok []
  | .wellFormed p => .ok p
  | .malformed m => .error m

/-- The observable outcome of the orchestration loop: the sequence of
`(tool_name, tool_params)` invocations actually passed to
`execute_mcp_tool`, in order, and the final `analysis_results` dict. -/
structure LoopOut where
  invocations : List (String × Params)
  results : List (String × String)
  deriving DecidableEq

/-- Prepend one performed invocation to a loop outcome (an exception
propagates unchanged). -/
def withInvocation (tool_name : String) (tool_params : Params) :
    Except String LoopOut → Except String LoopOut
  | .error e => .error e
  | .ok out => .ok ⟨(tool_name, tool_params) :: out.invocations, out.results⟩

/-- The `for tool_call in message.tool_calls` loop of
`analyze_with_openai`: for each proposal, `eval` the proposed arguments
(discarded; a malformed payload raises out of the loop), build the
parameter bag `{"symbol": symbol}` plus the canonical update for the
name, execute the tool, and — when the result is truthy (neither `None`
nor `""`) — assign it into `analysis_results` under
`key_mapping.get(tool_name, tool_name)`.  `k` is the ordinal of the next
invocation, `acc` the `analysis_results` dict so far. -/
def processToolCalls (call_tool : CallTool) (symbol : String) :
    Nat → List ToolCall → List (String × String) → Except String LoopOut
  | _, [], acc => .ok ⟨[], acc⟩
  | k, tc :: rest, acc =>
    match evalArguments tc.arguments with
    | .error e => .error e
    | .ok _tool_args =>
      let tool_params := toolParams tc.name symbol
      let acc2 : List (String × String) :=
        match execute_mcp_tool call_tool k tc.name tool_params with
        | some result =>
          if result = "" then acc
          else dictInsert acc (keyMapping tc.name) result
        | none => acc
      withInvocation tc.name tool_params
        (processToolCalls call_tool symbol (k + 1) rest acc2)

/-- The value returned by `analyze_with_openai`: either an error dict
`{"error": msg}` or the analysis bundle dict. -/
structure AnalysisBundle where
  symbol : String
  analyses : List (String × String)
  timestamp : String
  total_strategies : Nat
  openai_summary : String
  deriving DecidableEq

/-- Outcome of one orchestration run. -/
inductive AnalyzeOutcome where
  | error (msg : String)
  | bundle (b : AnalysisBundle)
  deriving DecidableEq

/-- `analyze_with_openai`.  `listToolsOutcome` is the MCP `list_tools`
outcome, `chatOutcome` the outcome of the chat completion call
(`Except.error` = the call raised, `.ok` = the message of its first
choice), `call_tool` the MCP session, `timestamp` the value of
`datetime.now().isoformat()`.  The whole body sits in one
`try/except Exception` whose handler returns
`{"error": "OpenAI analysis failed: " + str(e)}`; the exceptions that
can reach it are the chat-completion failure and an `eval` failure on a
proposed argument payload. -/
def analyze_with_openai (listToolsOutcome : Except String (Option (List MCPTool)))
    (chatOutcome : Except String ChatMessage) (call_tool : CallTool)
    (symbol timestamp : String) : AnalyzeOutcome :=
  let mcp_tools := get_available_tools listToolsOutcome
  let openai_tools := create_openai_tools_schema mcp_tools
  if openai_tools = [] then .error "No analysis tools available"
  else
    match chatOutcome with
    | .error e => .error ("OpenAI analysis failed: " ++ e)
    | .ok message =>
      match processToolCalls call_tool symbol 0 message.tool_calls [] with
      | .error e => .error ("OpenAI analysis failed: " ++ e)
      | .ok out =>
        if out.results = [] then
          .error "No analysis results obtained from OpenAI tool calls"
        else
          .bundle
            { symbol := symbol
            , analyses := out.results
            , timestamp := timestamp
            , total_strategies := out.results.length
            , openai_summary := pyOr message.content "Analysis completed via tool calls" }

/-- Python `str.title()` on the character list: an alphabetic character
is uppercased when the previous character is non-alphabetic and
lowercased otherwise; other characters pass through. -/
def pyTitleAux : Bool → List Char → List Char
  | _, [] => []
  | prevAlpha, c :: cs =>
    if c.isAlpha then
      (if prevAlpha then c.toLower else c.toUpper) :: pyTitleAux true cs
    else
      c :: pyTitleAux false cs

/-- Python `str.title()`. -/
def pyTitle (s : String) : String :=
  ⟨pyTitleAux false s.data⟩

/-- The `strategy_names` display-name table of
`generate_final_report_with_ai`. -/
def strategy_names_lookup (strategy_key : String) : Option String :=
  if strategy_key = "bollinger_zscore" then
    some "Bollinger Z-Score Performance Analysis"
  else if strategy_key = "bollinger_fibonacci" then
    some "Bollinger-Fibonacci Performance Analysis"
  else if strategy_key = "macd_donchian" then
    some "MACD-Donchian Performance Analysis"
  else if strategy_key = "connors_zscore" then
    some "Connors RSI + Z-Score Performance Analysis"
  else if strategy_key = "dual_ma" then
    some "Dual Moving Average Strategy Analysis"
  else none

/-- Two-decimal price rendering for the `${current_price:.2f}` prompt
fragment.  The source formats a binary float with bankers rounding; only
the prompt text depends on this, no claim does, so decimal cents by
floor suffice here. -/
def formatPrice2 (p : Rat) : String :=
  let cents : Int := (p * 100).floor
  let d : Int := cents / 100
  let c : Nat := (cents % 100).toNat
  toString d ++ "." ++ (if c < 10 then "0" else "") ++ toString c

/-- The `price_info` computation of `generate_final_report_with_ai`: the
1-day close history lookup sits in its own `try/except` that falls back
to `"N/A"` (a raised lookup and the `iloc[-1]` of an empty frame both
raise into that handler). -/
def price_info_of (priceHist : Except String (List Rat)) : String :=
  match priceHist with
  | .error _ => "N/A"
  | .ok closes =>
    match closes.getLast? with
    | none => "N/A"
    | some current_price => "$" ++ formatPrice2 current_price

/-- The `### heading` block built for one `analysis_results` entry. -/
def individualAnalysisBlock (kv : String × String) : String :=
  let strategy_name := (strategy_names_lookup kv.1).getD (pyTitle kv.1)
  "### " ++ strategy_name ++ "\n\n" ++ kv.2

/-- The `final_analysis_prompt` f-string of
`generate_final_report_with_ai`. -/
def build_final_prompt (priceHist : Except String (List Rat))
    (symbol : String) (analysis_data : AnalysisBundle) : String :=
  let individual_analyses := analysis_data.analyses.map individualAnalysisBlock
  let price_info := price_info_of priceHist
  String.intercalate "\n"
    [ "You are a senior financial analyst tasked with creating a comprehensive technical analysis report for " ++ symbol ++ ". "
    , ""
    , "I have conducted 5 different technical analysis strategies on " ++ symbol ++ " and need you to:"
    , ""
    , "1. **Analyze all the individual strategy results** and extract key metrics"
    , "2. **Create a performance summary table** with actual numbers from the analyses"
    , "3. **Provide a comprehensive final recommendation** based on the collective insights"
    , "4. **Generate the complete report in markdown format**"
    , ""
    , "## Context:"
    , "- **Symbol:** " ++ symbol
    , "- **Current Price:** " ++ price_info
    , "- **Analysis Period:** 1 Year"
    , "- **Number of Strategies:** " ++ toString analysis_data.total_strategies
    , ""
    , "## Individual Strategy Analysis Results:"
    , ""
    , String.intercalate "\n" individual_analyses
    , ""
    , "## Instructions for Your Report:"
    , ""
    , "Please create a complete markdown report with the following structure:"
    , ""
    , "1. **Header Section** with symbol, price, date, etc."
    , "2. **Executive Summary** explaining what was analyzed"
    , "3. **Performance Summary Table** - Extract the actual metrics from each strategy:"
    , "   - Strategy Name"
    , "   - Total Return (%)"
    , "   - Sharpe Ratio"
    , "   - Max Drawdown (%)"
    , "   - Win Rate (%)"
    , "   - Current Signal (BUY/SELL/HOLD)"
    , ""
    , "4. **Strategy Consensus Analysis** - Analyze the signals:"
    , "   - How many strategies recommend BUY vs SELL vs HOLD"
    , "   - Which strategies are performing best/worst"
    , "   - Any conflicting signals and why"
    , ""
    , "5. **Risk Assessment** - Based on the metrics:"
    , "   - Overall volatility assessment"
    , "   - Drawdown analysis"
    , "   - Risk-adjusted return evaluation"
    , ""
    , "6. **Final Investment Recommendation** - Your professional opinion:"
    , "   - Overall market signal (BULLISH/BEARISH/NEUTRAL)"
    , "   - Confidence level"
    , "   - Specific action recommendations"
    , "   - Position sizing guidance"
    , "   - Risk management suggestions"
    , "   - Key levels to monitor"
    , ""
    , "7. **Strategic Insights** - Higher-level analysis:"
    , "   - Market environment assessment"
    , "   - Which strategy types work best for this stock"
    , "   - Economic or sector considerations"
    , "   - Time horizon recommendations"
    , ""
    , "Please make the report professional, actionable, and insightful. Extract all numerical data accurately from the individual analyses. Provide clear reasoning for your recommendations."
    , ""
    , "Focus on creating value through synthesis and interpretation rather than just summarizing the individual results."
    ]

/-- `generate_final_report_with_ai`.  `chat` maps the user prompt to the
outcome of the chat completion (the call also carries a fixed system
message, `max_tokens=4000` and `temperature=0.3`; the returned value of
interest is `response.choices[0].message.content`).  The whole body is
one `try/except Exception` whose handler returns the fallback header
document; the price lookup fails independently into `"N/A"` and never
reaches that handler. -/
def generate_final_report_with_ai (chat : String → Except String String)
    (priceHist : Except String (List Rat)) (symbol : String)
    (analysis_data : AnalysisBundle) : String :=
  match chat (build_final_prompt priceHist symbol analysis_data) with
  | .ok content => content
  | .error e =>
    "# Technical Analysis Report: " ++ symbol ++
      "\n\nError generating comprehensive report: " ++ e

/-- `save_report`.  `mkdirOutcome` is the outcome of
`Path("analysis").mkdir(exist_ok=True)` (with `exist_ok=True` an
already-present directory is `.ok`; any other OS failure raises) and is
performed OUTSIDE the `try` block; `writeFile path content` is the
outcome of opening and writing the file, performed inside
`try/except Exception` whose handler returns `""`.  The overall result
is `Except String String`: `.error e` means the exception `e` escaped
`save_report`, `.ok p` is the returned string. -/
def save_report (mkdirOutcome : Except String Unit)
    (writeFile : String → String → Except String Unit)
    (report symbol timestamp : String) : Except String String :=
  match mkdirOutcome with
  | .error e => .error e
  | .ok _ =>
    let filename := "Technical_analysis_" ++ symbol ++ "_" ++ timestamp ++ ".md"
    let filepath := "analysis/" ++ filename
    match writeFile filepath report with
    | .ok _ => .ok filepath
    | .error _ => .ok ""

/-- The multiset of truthy tool results of one orchestration loop, in
execution order: for the proposal at invocation ordinal `k`, the pair
`(key_mapping name, result)` whenever the executed call returned a
truthy (neither `None` nor empty) text.  Defined for runs whose argument
payloads all parse (otherwise the loop raises before finishing). -/
def truthyResults (call_tool : CallTool) (symbol : String) :
    Nat → List ToolCall → List (String × String)
  | _, [] => []
  | k, tc :: rest =>
    match execute_mcp_tool call_tool k tc.name (toolParams tc.name symbol) with
    | some result =>
      if result = "" then truthyResults call_tool symbol (k + 1) rest
      else (keyMapping tc.name, result) :: truthyResults call_tool symbol (k + 1) rest
    | none => truthyResults call_tool symbol (k + 1) rest

/-! Helper lemmas. -/

lemma append_ne_empty_left (s t : String) (h : s ≠ "") : s ++ t ≠ "" := by
  intro he
  apply h
  have hd : s.data ++ t.data = [] := by
    have h2 := congrArg String.data he
    simpa [String.data_append] using h2
  have hs : s.data = [] := (List.append_eq_nil.mp hd).1
  cases s
  simp only [String.data] at hs
  subst hs
  rfl

lemma withInvocation_eq_ok {n : String} {p : Params}
    {r : Except String LoopOut} {out : LoopOut} :
    withInvocation n p r = .ok out ↔
      ∃ out0, r = .ok out0 ∧
        out = ⟨(n, p) :: out0.invocations, out0.results⟩ := by
  cases r with
  | error e => simp [withInvocation]
  | ok out0 =>
    simp only [withInvocation, Except.ok.injEq]
    constructor
    · intro h
      exact ⟨out0, rfl, h.symm⟩
    · rintro ⟨out1, h1, h2⟩
      cases h1
      exact h2.symm

lemma processToolCalls_ok_invocations
    (call_tool : CallTool) (symbol : String) :
    ∀ (tcs : List ToolCall) (k : Nat) (acc : List (String × String))
      (out : LoopOut),
      processToolCalls call_tool symbol k tcs acc = .ok out →
      out.invocations =
        tcs.map (fun tc => (tc.name, toolParams tc.name symbol)) := by
  intro tcs
  induction tcs with
  | nil =>
    intro k acc out h
    simp only [processToolCalls, Except.ok.injEq] at h
    rw [← h]
    rfl
  | cons tc rest ih =>
    intro k acc out h
    cases h1 : evalArguments tc.arguments with
    | error e =>
      simp [processToolCalls, h1] at h
    | ok p =>
      simp only [processToolCalls, h1] at h
      obtain ⟨out0, hrec, hout⟩ := withInvocation_eq_ok.mp h
      subst hout
      simp [ih _ _ _ hrec]

lemma processToolCalls_error_of_malformed
    (call_tool : CallTool) (symbol : String) :
    ∀ (tcs : List ToolCall) (k : Nat) (acc : List (String × String)),
      (∃ tc ∈ tcs, ∃ m, tc.arguments = .malformed m) →
      ∃ e, processToolCalls call_tool symbol k tcs acc = .error e := by
  intro tcs
  induction tcs with
  | nil =>
    intro k acc h
    simp at h
  | cons tc rest ih =>
    intro k acc h
    obtain ⟨tc0, hmem, m, hm⟩ := h
    rcases List.mem_cons.mp hmem with h0 | h0
    · subst h0
      exact ⟨m, by simp [processToolCalls, hm, evalArguments]⟩
    · cases h1 : evalArguments tc.arguments with
      | error e =>
        exact ⟨e, by simp [processToolCalls, h1]⟩
      | ok p =>
        obtain ⟨e, he⟩ := ih (k + 1)
          (match execute_mcp_tool call_tool k tc.name (toolParams tc.name symbol) with
           | some result =>
             if result = "" then acc
             else dictInsert acc (keyMapping tc.name) result
           | none => acc)
          ⟨tc0, h0, m, hm⟩
        exact ⟨e, by simp [processToolCalls, h1, he, withInvocation]⟩

lemma truthyResults_ne_empty
    (call_tool : CallTool) (symbol : String) :
    ∀ (tcs : List ToolCall) (k : Nat) (p : String × String),
      p ∈ truthyResults call_tool symbol k tcs → p.2 ≠ "" := by
  intro tcs
  induction tcs with
  | nil =>
    intro k p hp
    simp [truthyResults] at hp
  | cons tc rest ih =>
    intro k p hp
    cases h1 : execute_mcp_tool call_tool k tc.name
        (toolParams tc.name symbol) with
    | some r =>
      by_cases hr : r = ""
      · simp only [truthyResults, h1, hr, if_true] at hp
        exact ih (k + 1) p hp
      · simp only [truthyResults, h1, hr, if_false] at hp
        rcases List.mem_cons.mp hp with h2 | h2
        · subst h2
          exact hr
        · exact ih (k + 1) p h2
    | none =>
      simp only [truthyResults, h1] at hp
      exact ih (k + 1) p hp

lemma find?_overwrite (tl : List (String × String)) (k v q : String) :
    (tl.map (fun kv => if kv.1 = k then (k, v) else kv)).find?
        (fun kv => kv.1 = q) =
      if q = k then
        (if tl.any (fun kv => kv.1 = k) then some (k, v) else none)
      else tl.find? (fun kv => kv.1 = q) := by
  induction tl with
  | nil => simp
  | cons hd tl ih =>
    by_cases h1 : hd.1 = k
    · by_cases h2 : q = k
      · simp [h1, h2]
      · have h3 : ¬hd.1 = q := fun he => h2 ((he.symm.trans h1).symm ▸ rfl)
        simp only [List.map_cons, if_pos h1]
        rw [List.find?_cons_of_neg, List.find?_cons_of_neg, ih]
        · simp [h2]
        · simp [h3]
        · simp only [decide_eq_true_eq]
          exact fun he => h2 he.symm
    · by_cases h2 : hd.1 = q
      · have h3 : ¬q = k := fun he => h1 (h2.trans he)
        simp only [List.map_cons, if_neg h1]
        rw [List.find?_cons_of_pos, List.find?_cons_of_pos]
        · simp [h3]
        · simp [h2]
        · simp [h2]
      · simp only [List.map_cons, if_neg h1]
        rw [List.find?_cons_of_neg, ih]
        by_cases h3 : q = k
        · have h4 : decide (hd.1 = k) = false := by simp [h1]
          rw [if_pos h3, if_pos h3, List.any_cons, h4, Bool.false_or]
        · rw [if_neg h3, if_neg h3, List.find?_cons_of_neg]
          simp [h2]
        · simp [h2]

lemma find?_dictInsert (d : List (String × String)) (k v q : String) :
    (dictInsert d k v).find? (fun kv => kv.1 = q) =
      if q = k then some (k, v) else d.find? (fun kv => kv.1 = q) := by
  by_cases hany : d.any (fun kv => kv.1 = k) = true
  · simp only [dictInsert, hany, if_true]
    rw [find?_overwrite]
    by_cases h2 : q = k <;> simp [h2, hany]
  · have hfalse : d.any (fun kv => kv.1 = k) = false :=
      Bool.eq_false_iff.mpr hany
    simp only [dictInsert, hfalse, Bool.false_eq_true, if_false]
    rw [List.find?_append]
    by_cases h2 : q = k
    · have hnone : d.find? (fun kv => kv.1 = q) = none := by
        rw [List.find?_eq_none]
        intro x hx
        have hall := List.any_eq_false.mp hfalse x hx
        simpa [h2] using hall
      rw [hnone, Option.none_or, if_pos h2]
      rw [List.find?_cons_of_pos]
      simp [h2]
    · rw [if_neg h2]
      have : List.find? (fun kv => decide (kv.1 = q)) [(k, v)] = none := by
        rw [List.find?_cons_of_neg]
        · rfl
        · simp only [decide_eq_true_eq]
          exact fun he => h2 he.symm
      rw [this, Option.or_none]

lemma find?_foldl_dictInsert :
    ∀ (l acc : List (String × String)) (q : String),
      (l.foldl (fun d kv => dictInsert d kv.1 kv.2) acc).find?
          (fun kv => kv.1 = q) =
        (l.reverse.find? (fun kv => kv.1 = q)).or
          (acc.find? (fun kv => kv.1 = q)) := by
  intro l
  induction l with
  | nil => simp
  | cons hd tl ih =>
    intro acc q
    rw [List.foldl_cons, ih, List.reverse_cons, List.find?_append]
    rw [find?_dictInsert]
    cases htl : tl.reverse.find? (fun kv => kv.1 = q) with
    | some x => simp [Option.or]
    | none =>
      by_cases hk : q = hd.1
      · rw [if_pos hk, Option.none_or, Option.none_or]
        rw [List.find?_cons_of_pos]
        · simp [Option.or]
        · simp [hk.symm]
      · rw [if_neg hk, Option.none_or, Option.none_or]
        rw [List.find?_cons_of_neg]
        · rfl
        · simp only [decide_eq_true_eq]
          exact fun he => hk he.symm

lemma processToolCalls_ok_results
    (call_tool : CallTool) (symbol : String) :
    ∀ (tcs : List ToolCall) (k : Nat) (acc : List (String × String))
      (out : LoopOut),
      processToolCalls call_tool symbol k tcs acc = .ok out →
      out.results = (truthyResults call_tool symbol k tcs).foldl
        (fun d kv => dictInsert d kv.1 kv.2) acc := by
  intro tcs
  induction tcs with
  | nil =>
    intro k acc out h
    simp only [processToolCalls, Except.ok.injEq] at h
    rw [← h]
    simp [truthyResults]
  | cons tc rest ih =>
    intro k acc out h
    cases h1 : evalArguments tc.arguments with
    | error e =>
      simp [processToolCalls, h1] at h
    | ok p =>
      simp only [processToolCalls, h1] at h
      obtain ⟨out0, hrec, hout⟩ := withInvocation_eq_ok.mp h
      subst hout
      cases h2 : execute_mcp_tool call_tool k tc.name (toolParams tc.name symbol) with
      | some r =>
        simp only [h2] at hrec
        by_cases hr : r = ""
        · rw [if_pos hr] at hrec
          simp only [truthyResults, h2, hr, if_true]
          exact ih _ _ _ hrec
        · rw [if_neg hr] at hrec
          simp only [truthyResults, h2, hr, if_false, List.foldl_cons]
          exact ih _ _ _ hrec
      | none =>
        simp only [h2] at hrec
        simp only [truthyResults, h2]
        exact ih _ _ _ hrec

/-- First entry of an `analysis_results` dict whose key is `k` (the
populated entry for that strategy identifier, since dict keys are
unique). -/
def findKey (d : List (String × String)) (k : String) :
    Option (String × String) :=
  d.find? (fun kv => kv.1 = k)

/-! Concrete inputs used to instantiate the claim theorems. -/

/-- A tool session answering every call with the text `"res"`. -/
def ctRes : CallTool := fun _ _ _ => .ok ⟨["res"]⟩

/-- One proposed call to the dual-MA tool whose backend-proposed argument
payload tries to smuggle a different symbol and window. -/
def tcsEvilArgs : List ToolCall :=
  [⟨"analyze_dual_ma_strategy",
    .wellFormed [("symbol", JVal.s "EVIL"), ("window", JVal.q 7)]⟩]

/-- The parameter bag the orchestration loop actually sends for the
dual-MA tool and symbol `"AAPL"`. -/
def dualMaParamsAAPL : Params :=
  [ ("symbol", JVal.s "AAPL"), ("period", JVal.s "1y")
  , ("short_period", JVal.q 50), ("long_period", JVal.q 200)
  , ("ma_type", JVal.s "EMA") ]

/-- The loop outcome for `tcsEvilArgs` against `ctRes`. -/
def outEvilArgs : LoopOut :=
  ⟨[("analyze_dual_ma_strategy", dualMaParamsAAPL)], [("dual_ma", "res")]⟩

/-- C1: for every tool invocation proposed by the generative backend
whose tool name is one of the five recognized strategies, the parameter
bag actually passed to the tool session's invoke is that strategy's
hardcoded canonical parameters merged with the run's symbol, regardless
of the argument payload the backend proposed. -/
theorem canonical_parameters_invariant
    (call_tool : CallTool) (symbol : String) (tcs : List ToolCall)
    (k : Nat) (acc : List (String × String)) (out : LoopOut)
    (h : processToolCalls call_tool symbol k tcs acc = .ok out)
    (n : String) (ps : Params)
    (hmem : (n, ps) ∈ out.invocations)
    (_hrec : n ∈ target_tools) :
    ps = ("symbol", JVal.s symbol) :: canonicalParams n := by
  rw [processToolCalls_ok_invocations call_tool symbol tcs k acc out h] at hmem
  obtain ⟨tc, htc, heq⟩ := List.mem_map.mp hmem
  have h1 : tc.name = n := congrArg Prod.fst heq
  have h2 : toolParams tc.name symbol = ps := congrArg Prod.snd heq
  rw [← h2, toolParams, h1]

/-- C1 witness: a concrete run of the loop on a dual-MA proposal whose
backend-proposed arguments name a different symbol; the bag actually
sent is still the canonical one for `"AAPL"`. -/
theorem canonical_parameters_invariant_witness :
    dualMaParamsAAPL =
      ("symbol", JVal.s "AAPL") :: canonicalParams "analyze_dual_ma_strategy" :=
  canonical_parameters_invariant ctRes "AAPL" tcsEvilArgs 0 [] outEvilArgs
    rfl "analyze_dual_ma_strategy" dualMaParamsAAPL
    (by decide) (by decide)

/-- An MCP catalog holding just the dual-MA tool (so the schema is
non-empty). -/
def ltDualOnly : Except String (Option (List MCPTool)) :=
  .ok (some [⟨"analyze_dual_ma_strategy", some "desc"⟩])

/-- A backend message proposing a single unrecognized tool name. -/
def chatMystery : Except String ChatMessage :=
  .ok ⟨some "summary", [⟨"mystery_tool", .empty⟩]⟩

/-- A tool session answering every call with the text `"out"`. -/
def ctOut : CallTool := fun _ _ _ => .ok ⟨["out"]⟩

/-- C2 counterexample: a run whose only proposal names the unrecognized
tool `"mystery_tool"`.  The loop does execute it against the tool session
(with only the symbol parameter), the result is stored in the mapping
under the raw tool name, and the run returns a bundle — not the
"no analysis results obtained" error. -/
theorem unknown_tool_skipped_counterexample :
    processToolCalls ctOut "AAPL" 0 [⟨"mystery_tool", ArgPayload.empty⟩] []
      = Except.ok ⟨[("mystery_tool", [("symbol", JVal.s "AAPL")])],
                   [("mystery_tool", "out")]⟩
    ∧ analyze_with_openai ltDualOnly chatMystery ctOut "AAPL" "T"
      = .bundle ⟨"AAPL", [("mystery_tool", "out")], "T", 1, "summary"⟩ :=
  ⟨rfl, rfl⟩

/-- C2 amended: proposals with unrecognized tool names are not skipped —
each one is passed to the tool session's invoke with only the symbol
parameter (no canonical update applies), and its key in the results
mapping is the raw tool name. -/
theorem unknown_tool_still_executed
    (call_tool : CallTool) (symbol : String) (tcs : List ToolCall)
    (k : Nat) (acc : List (String × String)) (out : LoopOut)
    (h : processToolCalls call_tool symbol k tcs acc = .ok out) :
    out.invocations = tcs.map (fun tc => (tc.name, toolParams tc.name symbol))
    ∧ (∀ n, n ∉ target_tools → toolParams n symbol = [("symbol", JVal.s symbol)])
    ∧ (∀ n, n ∉ target_tools → keyMapping n = n) := by
  refine ⟨processToolCalls_ok_invocations _ _ _ _ _ _ h, ?_, ?_⟩
  · intro n hn
    simp only [target_tools, List.mem_cons, List.not_mem_nil, or_false,
      not_or] at hn
    obtain ⟨h1, h2, h3, h4, h5⟩ := hn
    simp [toolParams, canonicalParams, h1, h2, h3, h4, h5]
  · intro n hn
    simp only [target_tools, List.mem_cons, List.not_mem_nil, or_false,
      not_or] at hn
    obtain ⟨h1, h2, h3, h4, h5⟩ := hn
    simp [keyMapping, h1, h2, h3, h4, h5]

/-- The single `"mystery_tool"` proposal list. -/
def tcsMystery : List ToolCall := [⟨"mystery_tool", ArgPayload.empty⟩]

/-- C2 witness: in the concrete `"mystery_tool"` run, the parameter bag
sent is just the symbol, and the raw tool name is its results key. -/
theorem unknown_tool_still_executed_witness :
    toolParams "mystery_tool" "AAPL" = [("symbol", JVal.s "AAPL")]
    ∧ keyMapping "mystery_tool" = "mystery_tool" := by
  have h := unknown_tool_still_executed ctOut "AAPL" tcsMystery 0 []
    (LoopOut.mk [("mystery_tool", [("symbol", JVal.s "AAPL")])]
      [("mystery_tool", "out")])
    rfl
  exact ⟨h.2.1 "mystery_tool" (by decide), h.2.2 "mystery_tool" (by decide)⟩

/-- A tool session answering every call with one empty text block. -/
def ctEmptyText : CallTool := fun _ _ _ => .ok ⟨[""]⟩

/-- A backend message proposing a single dual-MA call. -/
def chatDualOnce : Except String ChatMessage :=
  .ok ⟨some "s", [⟨"analyze_dual_ma_strategy", .empty⟩]⟩

/-- C3 counterexample: a run whose only tool invocation returns the
non-null empty string.  The entry is NOT populated (`if result:` is
falsy on `""`), and the run ends in the "no analysis results obtained"
error — the empty-string result is treated exactly like an absent one. -/
theorem empty_result_stored_counterexample :
    execute_mcp_tool ctEmptyText 0 "analyze_dual_ma_strategy"
        (toolParams "analyze_dual_ma_strategy" "AAPL") = some ""
    ∧ analyze_with_openai ltDualOnly chatDualOnce ctEmptyText "AAPL" "T"
      = .error "No analysis results obtained from OpenAI tool calls" :=
  ⟨rfl, rfl⟩

/-- C3 amended: an entry is populated for a strategy key exactly when
some executed invocation for that key returned a truthy result —
non-null AND non-empty; a null result and an empty-string result both
leave the entry unpopulated. -/
theorem populated_iff_truthy_result
    (call_tool : CallTool) (symbol : String) (tcs : List ToolCall)
    (out : LoopOut)
    (h : processToolCalls call_tool symbol 0 tcs [] = .ok out) :
    (∀ k, (∃ v, (k, v) ∈ out.results) ↔
       (∃ r, (k, r) ∈ truthyResults call_tool symbol 0 tcs))
    ∧ (∀ p ∈ truthyResults call_tool symbol 0 tcs, p.2 ≠ "") := by
  have hfind : ∀ k, out.results.find? (fun kv => kv.1 = k)
      = (truthyResults call_tool symbol 0 tcs).reverse.find?
          (fun kv => kv.1 = k) := by
    intro k
    rw [processToolCalls_ok_results call_tool symbol tcs 0 [] out h,
      find?_foldl_dictInsert]
    simp
  constructor
  · intro k
    constructor
    · rintro ⟨v, hv⟩
      have hsome : (out.results.find? (fun kv => kv.1 = k)).isSome := by
        rw [List.find?_isSome]
        exact ⟨(k, v), hv, by simp⟩
      rw [hfind k, List.find?_isSome] at hsome
      obtain ⟨x, hx, hxk⟩ := hsome
      have hk : x.1 = k := by simpa using hxk
      refine ⟨x.2, ?_⟩
      rw [← hk]
      exact List.mem_reverse.mp hx
    · rintro ⟨r, hr⟩
      have hsome : ((truthyResults call_tool symbol 0 tcs).reverse.find?
          (fun kv => kv.1 = k)).isSome := by
        rw [List.find?_isSome]
        exact ⟨(k, r), List.mem_reverse.mpr hr, by simp⟩
      rw [← hfind k, List.find?_isSome] at hsome
      obtain ⟨x, hx, hxk⟩ := hsome
      have hk : x.1 = k := by simpa using hxk
      refine ⟨x.2, ?_⟩
      rw [← hk]
      exact hx
  · exact truthyResults_ne_empty call_tool symbol tcs 0

/-- A tool session whose first answer is the empty text and whose later
answers are `"ok"`. -/
def ctFirstEmpty : CallTool := fun k _ _ =>
  if k = 0 then .ok ⟨[""]⟩ else .ok ⟨["ok"]⟩

/-- Two dual-MA proposals for the `populated_iff_truthy_result`
witness. -/
def tcsDualTwice : List ToolCall :=
  [⟨"analyze_dual_ma_strategy", .empty⟩, ⟨"analyze_dual_ma_strategy", .empty⟩]

/-- C3 witness: with one empty-string answer and one `"ok"` answer, the
dual-MA entry is populated (the truthy `"ok"` answer exists), as the
amended theorem states. -/
theorem populated_iff_truthy_result_witness :
    ∃ v, ("dual_ma", v) ∈
      (LoopOut.mk
        [ ("analyze_dual_ma_strategy", dualMaParamsAAPL)
        , ("analyze_dual_ma_strategy", dualMaParamsAAPL) ]
        [("dual_ma", "ok")]).results :=
  ((populated_iff_truthy_result ctFirstEmpty "AAPL" tcsDualTwice _
      rfl).1 "dual_ma").mpr ⟨"ok", by decide⟩

/-- C4: the orchestrator is total — every run returns either a bundle or
an error carrying a non-empty description; a chat-transport failure and
a malformed (non-parseable) tool-call argument payload are both
converted to an error result rather than escaping. -/
theorem orchestrator_total
    (listToolsOutcome : Except String (Option (List MCPTool)))
    (chatOutcome : Except String ChatMessage) (call_tool : CallTool)
    (symbol timestamp : String) :
    ((∃ e, analyze_with_openai listToolsOutcome chatOutcome call_tool
        symbol timestamp = .error e ∧ e ≠ "")
      ∨ (∃ b, analyze_with_openai listToolsOutcome chatOutcome call_tool
        symbol timestamp = .bundle b))
    ∧ (∀ e, chatOutcome = .error e →
        ∃ msg, analyze_with_openai listToolsOutcome chatOutcome call_tool
          symbol timestamp = .error msg)
    ∧ (∀ m tc, chatOutcome = .ok m → tc ∈ m.tool_calls →
        (∀ s, tc.arguments = .malformed s →
          ∃ msg, analyze_with_openai listToolsOutcome chatOutcome call_tool
            symbol timestamp = .error msg)) := by
  by_cases hschema :
      create_openai_tools_schema (get_available_tools listToolsOutcome) = []
  · refine ⟨Or.inl ⟨"No analysis tools available", ?_, by decide⟩, ?_, ?_⟩
    · simp [analyze_with_openai, hschema]
    · intro e he
      exact ⟨"No analysis tools available", by simp [analyze_with_openai, hschema]⟩
    · intro m tc hm hmem s hs
      exact ⟨"No analysis tools available", by simp [analyze_with_openai, hschema]⟩
  · refine ⟨?_, ?_, ?_⟩
    · cases hchat : chatOutcome with
      | error e =>
        refine Or.inl ⟨"OpenAI analysis failed: " ++ e, ?_,
          append_ne_empty_left _ _ (by decide)⟩
        simp [analyze_with_openai, hschema, hchat]
      | ok m =>
        cases hp : processToolCalls call_tool symbol 0 m.tool_calls [] with
        | error e =>
          refine Or.inl ⟨"OpenAI analysis failed: " ++ e, ?_,
            append_ne_empty_left _ _ (by decide)⟩
          simp [analyze_with_openai, hschema, hchat, hp]
        | ok out =>
          by_cases hres : out.results = []
          · refine Or.inl
              ⟨"No analysis results obtained from OpenAI tool calls", ?_, by decide⟩
            simp [analyze_with_openai, hschema, hchat, hp, hres]
          · refine Or.inr ⟨⟨symbol, out.results, timestamp, out.results.length,
              pyOr m.content "Analysis completed via tool calls"⟩, ?_⟩
            simp [analyze_with_openai, hschema, hchat, hp, hres]
    · intro e he
      refine ⟨"OpenAI analysis failed: " ++ e, ?_⟩
      simp [analyze_with_openai, hschema, he]
    · intro m tc hm hmem s hs
      obtain ⟨e, hp⟩ := processToolCalls_error_of_malformed call_tool symbol
        m.tool_calls 0 [] ⟨tc, hmem, s, hs⟩
      refine ⟨"OpenAI analysis failed: " ++ e, ?_⟩
      simp [analyze_with_openai, hschema, hm, hp]

/-- A backend message proposing one dual-MA call with a malformed
argument payload. -/
def chatMalformed : Except String ChatMessage :=
  .ok ⟨some "s", [⟨"analyze_dual_ma_strategy",
    .malformed "SyntaxError: invalid syntax"⟩]⟩

/-- C4 witness: a raised chat call and a malformed argument payload both
end in an error result at concrete inputs. -/
theorem orchestrator_total_witness :
    (∃ msg, analyze_with_openai ltDualOnly (Except.error "connection reset")
      ctRes "AAPL" "T" = .error msg)
    ∧ (∃ msg, analyze_with_openai ltDualOnly chatMalformed ctRes "AAPL" "T"
      = .error msg) :=
  ⟨(orchestrator_total ltDualOnly (Except.error "connection reset") ctRes
      "AAPL" "T").2.1 "connection reset" rfl,
   (orchestrator_total ltDualOnly chatMalformed ctRes "AAPL" "T").2.2
      ⟨some "s", [⟨"analyze_dual_ma_strategy",
        .malformed "SyntaxError: invalid syntax"⟩]⟩
      ⟨"analyze_dual_ma_strategy", .malformed "SyntaxError: invalid syntax"⟩
      rfl (by decide) "SyntaxError: invalid syntax" rfl⟩

/-- C5: once the proposed invocations are processed, an empty results
mapping yields the "no analysis results obtained" error — never a bundle
with zero populated strategies — and a non-empty mapping yields a bundle
whose `total_strategies` equals the number of populated entries. -/
theorem empty_results_is_error
    (listToolsOutcome : Except String (Option (List MCPTool)))
    (call_tool : CallTool) (symbol timestamp : String)
    (m : ChatMessage) (out : LoopOut)
    (hschema : create_openai_tools_schema (get_available_tools listToolsOutcome) ≠ [])
    (hp : processToolCalls call_tool symbol 0 m.tool_calls [] = .ok out) :
    (out.results = [] →
      analyze_with_openai listToolsOutcome (.ok m) call_tool symbol timestamp
        = .error "No analysis results obtained from OpenAI tool calls")
    ∧ (out.results ≠ [] →
      analyze_with_openai listToolsOutcome (.ok m) call_tool symbol timestamp
        = .bundle ⟨symbol, out.results, timestamp, out.results.length,
            pyOr m.content "Analysis completed via tool calls"⟩)
    ∧ (∀ b, analyze_with_openai listToolsOutcome (.ok m) call_tool symbol
        timestamp = .bundle b →
        b.analyses ≠ [] ∧ b.total_strategies = b.analyses.length) := by
  refine ⟨?_, ?_, ?_⟩
  · intro hres
    simp [analyze_with_openai, hschema, hp, hres]
  · intro hres
    simp [analyze_with_openai, hschema, hp, hres]
  · intro b hb
    by_cases hres : out.results = []
    · simp [analyze_with_openai, hschema, hp, hres] at hb
    · simp [analyze_with_openai, hschema, hp, hres] at hb
      rw [← hb]
      exact ⟨hres, rfl⟩

/-- A backend message proposing no tool calls at all. -/
def chatNoCalls : Except String ChatMessage := .ok ⟨some "s", []⟩

/-- C5 witness: with no proposed calls the run is the "no analysis
results obtained" error; with one successful dual-MA call it is a bundle
with exactly one populated strategy. -/
theorem empty_results_is_error_witness :
    analyze_with_openai ltDualOnly chatNoCalls ctRes "AAPL" "T"
      = .error "No analysis results obtained from OpenAI tool calls"
    ∧ analyze_with_openai ltDualOnly chatDualOnce ctRes "AAPL" "T"
      = .bundle ⟨"AAPL", [("dual_ma", "res")], "T", 1, "s"⟩ :=
  ⟨(empty_results_is_error ltDualOnly ctRes "AAPL" "T" ⟨some "s", []⟩
      (LoopOut.mk [] []) (by decide) rfl).1 rfl,
   (empty_results_is_error ltDualOnly ctRes "AAPL" "T"
      ⟨some "s", [⟨"analyze_dual_ma_strategy", .empty⟩]⟩
      (LoopOut.mk [("analyze_dual_ma_strategy", dualMaParamsAAPL)]
        [("dual_ma", "res")])
      (by decide) rfl).2.1 (by decide)⟩

/-- A chat backend whose completion succeeds with empty content. -/
def chatEmptyContent : String → Except String String := fun _ => .ok ""

/-- A chat backend whose completion call raises. -/
def chatRaises : String → Except String String := fun _ => .error "boom"

/-- A small bundle for the report-synthesis claims. -/
def bundleDual : AnalysisBundle :=
  ⟨"AAPL", [("dual_ma", "result text")], "T", 1, "s"⟩

/-- C6 counterexample: when the backend call succeeds but returns empty
content, the synthesizer returns the empty document verbatim — the
claimed "non-empty document for every symbol and bundle" fails. -/
theorem synthesizer_nonempty_counterexample :
    generate_final_report_with_ai chatEmptyContent (Except.error "no price")
      "AAPL" bundleDual = "" :=
  rfl

/-- C6 amended: on any backend failure the synthesizer returns the
non-empty fallback document — the report header with the correct symbol
followed by an inline error message — and never raises; on backend
success it returns the backend's content verbatim, so the output is
non-empty only when that content is. -/
theorem synthesizer_fallback
    (chat : String → Except String String)
    (priceHist : Except String (List Rat)) (symbol : String)
    (analysis_data : AnalysisBundle) :
    (∀ e, chat (build_final_prompt priceHist symbol analysis_data) = .error e →
      generate_final_report_with_ai chat priceHist symbol analysis_data
        = "# Technical Analysis Report: " ++ symbol
            ++ "\n\nError generating comprehensive report: " ++ e
      ∧ generate_final_report_with_ai chat priceHist symbol analysis_data ≠ "")
    ∧ (∀ c, chat (build_final_prompt priceHist symbol analysis_data) = .ok c →
      generate_final_report_with_ai chat priceHist symbol analysis_data = c) := by
  constructor
  · intro e he
    have heq : generate_final_report_with_ai chat priceHist symbol analysis_data
        = "# Technical Analysis Report: " ++ symbol
            ++ "\n\nError generating comprehensive report: " ++ e := by
      simp [generate_final_report_with_ai, he]
    refine ⟨heq, ?_⟩
    rw [heq]
    exact append_ne_empty_left _ _
      (append_ne_empty_left _ _
        (append_ne_empty_left _ _ (by decide)))
  · intro c hc
    simp [generate_final_report_with_ai, hc]

/-- C6 witness: a raised backend call at concrete inputs yields exactly
the fallback header document, which is non-empty. -/
theorem synthesizer_fallback_witness :
    generate_final_report_with_ai chatRaises (Except.error "no price")
      "AAPL" bundleDual
      = "# Technical Analysis Report: " ++ "AAPL"
          ++ "\n\nError generating comprehensive report: " ++ "boom"
    ∧ generate_final_report_with_ai chatRaises (Except.error "no price")
      "AAPL" bundleDual ≠ "" :=
  (synthesizer_fallback chatRaises (Except.error "no price") "AAPL"
    bundleDual).1 "boom" rfl

/-- A write operation that always succeeds. -/
def writeOk : String → String → Except String Unit := fun _ _ => .ok ()

/-- A write operation that always raises. -/
def writeRaises : String → String → Except String Unit :=
  fun _ _ => .error "PermissionError: Access denied"

/-- C7 counterexample: `Path("analysis").mkdir(exist_ok=True)` runs
before the `try` block, so a directory-creation failure escapes
`save_report` as an exception instead of being converted to the
empty-string return. -/
theorem save_report_mkdir_counterexample :
    save_report (Except.error "PermissionError: cannot create directory")
      writeOk "report body" "AAPL" "20240101_000000"
      = Except.error "PermissionError: cannot create directory"
    ∧ save_report (Except.error "PermissionError: cannot create directory")
      writeOk "report body" "AAPL" "20240101_000000" ≠ Except.ok "" := by
  constructor
  · rfl
  · intro h
    simp [save_report] at h

/-- C7 amended: a failure of the file-write step is caught and converted
to the empty-string return, and a successful write returns the path of
the written file; but a failure of the directory-creation step is NOT
caught — it escapes `save_report` as the raised exception. -/
theorem save_report_behavior
    (mkdirOutcome : Except String Unit)
    (writeFile : String → String → Except String Unit)
    (report symbol timestamp : String) :
    (∀ e, mkdirOutcome = .error e →
      save_report mkdirOutcome writeFile report symbol timestamp = .error e)
    ∧ (mkdirOutcome = .ok () →
        (∀ e, writeFile ("analysis/" ++ ("Technical_analysis_" ++ symbol
            ++ "_" ++ timestamp ++ ".md")) report = .error e →
          save_report mkdirOutcome writeFile report symbol timestamp
            = .ok "")
        ∧ (writeFile ("analysis/" ++ ("Technical_analysis_" ++ symbol
            ++ "_" ++ timestamp ++ ".md")) report = .ok () →
          save_report mkdirOutcome writeFile report symbol timestamp
            = .ok ("analysis/" ++ ("Technical_analysis_" ++ symbol
                ++ "_" ++ timestamp ++ ".md")))) := by
  constructor
  · intro e he
    simp [save_report, he]
  · intro hok
    constructor
    · intro e he
      simp [save_report, hok, he]
    · intro he
      simp [save_report, hok, he]

/-- C7 witness: with the directory present, a raised write returns `""`
and a successful write returns the `.md` path under `analysis/`. -/
theorem save_report_behavior_witness :
    save_report (Except.ok ()) writeRaises "report body" "AAPL"
      "20240101_000000" = Except.ok ""
    ∧ save_report (Except.ok ()) writeOk "report body" "AAPL"
      "20240101_000000"
      = Except.ok ("analysis/" ++ ("Technical_analysis_" ++ "AAPL"
          ++ "_" ++ "20240101_000000" ++ ".md")) :=
  ⟨((save_report_behavior (Except.ok ()) writeRaises "report body" "AAPL"
      "20240101_000000").2 rfl).1 "PermissionError: Access denied" rfl,
   ((save_report_behavior (Except.ok ()) writeOk "report body" "AAPL"
      "20240101_000000").2 rfl).2 rfl⟩

/-- C8: an empty or whitespace-only symbol yields `false` with zero
external lookups, and a raised external lookup is swallowed into a
`false` result (the embedding is a total function — validation never
raises). -/
theorem validate_symbol_spec
    (lookup : String → Except String (List Rat)) (symbol : String) :
    (pyStrip symbol = "" → validate_symbol lookup symbol = (false, 0))
    ∧ (∀ e, lookup ((pyStrip symbol).toUpper) = .error e →
        (validate_symbol lookup symbol).1 = false) := by
  constructor
  · intro h
    simp [validate_symbol, h]
  · intro e he
    by_cases h0 : symbol = "" ∨ pyStrip symbol = ""
    · simp [validate_symbol, h0]
    · simp [validate_symbol, h0, he]

/-- A market-data lookup that always raises. -/
def lookupRaises : String → Except String (List Rat) :=
  fun _ => .error "HTTPError"

/-- C8 witness: the whitespace-only symbol gives `(false, 0)` and a
raised lookup on `"aapl"` gives `false`. -/
theorem validate_symbol_spec_witness :
    validate_symbol lookupRaises "  " = (false, 0)
    ∧ (validate_symbol lookupRaises "aapl").1 = false :=
  ⟨(validate_symbol_spec lookupRaises "  ").1 (by decide),
   (validate_symbol_spec lookupRaises "aapl").2 "HTTPError" rfl⟩

/-- C9: the tool-schema adapter keeps exactly the descriptors whose
names are in the five-tool allow-list, in input order, and emits each
with the tool's name, its description or the generated fallback naming
the tool when the description is falsy, and a parameter schema requiring
exactly the one string parameter `symbol`. -/
theorem schema_filter_and_shape (tools : List MCPTool) :
    create_openai_tools_schema tools
      = (tools.filter (fun t => t.name ∈ target_tools)).map mkOpenAITool
    ∧ ∀ t : MCPTool,
        mkOpenAITool t =
          ⟨"function",
            ⟨t.name,
             (match t.description with
              | some d => if d = "" then "Execute " ++ t.name ++ " analysis" else d
              | none => "Execute " ++ t.name ++ " analysis"),
             ⟨"object", [("symbol", ⟨"string", "Stock ticker symbol"⟩)],
              ["symbol"]⟩⟩⟩ := by
  constructor
  · induction tools with
    | nil => rfl
    | cons t ts ih =>
      by_cases h : t.name ∈ target_tools
      · simp [create_openai_tools_schema, List.filter_cons, h, ih]
      · simp [create_openai_tools_schema, List.filter_cons, h, ih]
  · intro t
    cases t with
    | mk n d =>
      cases d with
      | none => rfl
      | some s => rfl

/-- A tool session answering the first call with `"a"` and later calls
with `"b"`. -/
def ctAB : CallTool := fun k _ _ =>
  if k = 0 then .ok ⟨["a"]⟩ else .ok ⟨["b"]⟩

/-- A tool session answering the first call with `"x"` and later calls
with the empty text. -/
def ctThenEmpty : CallTool := fun k _ _ =>
  if k = 0 then .ok ⟨["x"]⟩ else .ok ⟨[""]⟩

/-- C10 counterexample: two dual-MA proposals where the first invocation
returns `"x"` and the second returns the non-null empty string.  Both
are executed, but the entry keeps `"x"` — not the result of the last
proposal that returned a non-null result (which was `""`), refuting
last-non-null-write-wins. -/
theorem duplicate_last_nonnull_counterexample :
    processToolCalls ctThenEmpty "AAPL" 0 tcsDualTwice []
      = Except.ok ⟨[ ("analyze_dual_ma_strategy", dualMaParamsAAPL)
                   , ("analyze_dual_ma_strategy", dualMaParamsAAPL) ],
                   [("dual_ma", "x")]⟩
    ∧ execute_mcp_tool ctThenEmpty 1 "analyze_dual_ma_strategy"
        (toolParams "analyze_dual_ma_strategy" "AAPL") = some ""
    ∧ ("x" : String) ≠ "" :=
  ⟨rfl, rfl, by decide⟩

/-- C10 amended: every proposal is executed against the tool session —
one invocation per proposal, in order, with no de-duplication — and the
entry for each strategy key holds the result of the last proposal whose
invocation returned a truthy (non-null and non-empty) result. -/
theorem duplicate_proposals_last_truthy
    (call_tool : CallTool) (symbol : String) (tcs : List ToolCall)
    (out : LoopOut)
    (h : processToolCalls call_tool symbol 0 tcs [] = .ok out) :
    out.invocations = tcs.map (fun tc => (tc.name, toolParams tc.name symbol))
    ∧ ∀ k, findKey out.results k
        = (truthyResults call_tool symbol 0 tcs).reverse.find?
            (fun kv => kv.1 = k) := by
  constructor
  · exact processToolCalls_ok_invocations _ _ _ _ _ _ h
  · intro k
    rw [findKey, processToolCalls_ok_results _ _ _ _ _ _ h,
      find?_foldl_dictInsert]
    simp

/-- C10 witness: two duplicate dual-MA proposals answering `"a"` then
`"b"` are both executed and the entry holds `"b"`, the last truthy
result. -/
theorem duplicate_proposals_last_truthy_witness :
    findKey (LoopOut.mk
        [ ("analyze_dual_ma_strategy", dualMaParamsAAPL)
        , ("analyze_dual_ma_strategy", dualMaParamsAAPL) ]
        [("dual_ma", "b")]).results "dual_ma"
      = some ("dual_ma", "b") :=
  ((duplicate_proposals_last_truthy ctAB "AAPL" tcsDualTwice _ rfl).2
      "dual_ma").trans (by decide)

end StockAnalyzer
